import Mathlib

set_option maxRecDepth 10000

/-!
Verification development for the SimpleEconomy ledger (`src/Economy.go`).

The Go program keeps per-player accounts in a map keyed by the lowercased
username, mutates balances under a lock, recomputes a top-players ranking
after mutations, and appends audit-log lines for completed mutations.

Modelling conventions:
* `float64` amounts are modelled as exact rationals `ℚ` (the claims exercise
  only values that are exact in the binary doubles involved);
* Go's map is modelled as an association list with overwrite-on-insert
  (`mapInsert`), which matches `m[k] = v` semantics;
* `time.Now()` is an external input, passed to each operation as a `Nat`
  tick `now`; the rendered timestamp text of a log line is likewise passed
  as a string where needed;
* pointer mutation of a `PlayerAccount` obtained from the map is modelled by
  re-inserting the updated record at the same key, which is observationally
  the same for the sequential semantics;
* `strings.ToLower` is modelled by `lowerStr` (per-character `Char.toLower`,
  which performs the ASCII case folding exercised by the program).
-/

/-- Go `strings.ToLower`, modelled as per-character lowering. -/
def lowerStr (s : String) : String := String.mk (s.data.map Char.toLower)

/-- Go map lookup `m[k]` on an association list. -/
def mapLookup {α : Type} (k : String) : List (String × α) → Option α
  | [] => none
  | p :: rest => if p.1 = k then some p.2 else mapLookup k rest

/-- Go map assignment `m[k] = v`: replace the binding of `k` if present,
otherwise add it. -/
def mapInsert {α : Type} (k : String) (v : α) : List (String × α) → List (String × α)
  | [] => [(k, v)]
  | p :: rest => if p.1 = k then (k, v) :: rest else p :: mapInsert k v rest

/-- `PlayerAccount` from `Economy.go` (lines 26-32); `LastSeen` is a tick. -/
structure PlayerAccount where
  username : String
  balance : ℚ
  lastSeen : Nat
  totalEarned : ℚ
  totalSpent : ℚ
deriving DecidableEq

/-- `Config` from `Economy.go` (lines 34-41).  `TopPlayersLimit` is a Go
`int`; the spec (§3) constrains it to be ≥ 0, so it is modelled as `Nat`. -/
structure Config where
  defaultBalance : ℚ
  maxBalance : ℚ
  currencySymbol : String
  currencyName : String
  enableLogging : Bool
  topPlayersLimit : Nat
deriving DecidableEq

/-- `TransactionType` constants (lines 43-50): ADD = 0, SUBTRACT = 1,
SET = 2, TRANSFER = 3. -/
inductive TransactionType where
  | ADD
  | SUBTRACT
  | SET
  | TRANSFER
deriving DecidableEq

/-- The integer value of a `TransactionType`, as printed by `%d`. -/
def TransactionType.toNat : TransactionType → Nat
  | .ADD => 0
  | .SUBTRACT => 1
  | .SET => 2
  | .TRANSFER => 3

/-- `Transaction` (lines 52-59).  The Go fields `From`/`To`/`Amount`/`Type`/
`Timestamp`/`Reason`; `Type` is a Lean keyword, so the field is `Kind`. -/
structure Transaction where
  From : String
  To : String
  Amount : ℚ
  Kind : TransactionType
  Timestamp : Nat
  Reason : String
deriving DecidableEq

/-- The mutable state of `EconomyPlugin` (lines 16-24) plus the contents of
`transactions.log` as the list of appended `Transaction` records. -/
structure EconomyPlugin where
  playerData : List (String × PlayerAccount)
  config : Config
  topPlayers : List PlayerAccount
  log : List Transaction
deriving DecidableEq

/-- One inner-loop pass of the bubble sort in `updateTopPlayers`
(lines 353-359): `k` is the inner loop bound `len(players)-1-i`; a compare
and conditional swap happens at positions `0..k-1`, carrying the smaller
element rightward. -/
def bubblePass : Nat → List PlayerAccount → List PlayerAccount
  | _, [] => []
  | 0, l => l
  | _ + 1, [a] => [a]
  | k + 1, a :: b :: rest =>
      if a.balance < b.balance then b :: bubblePass k (a :: rest)
      else a :: bubblePass k (b :: rest)

/-- The outer loop of the bubble sort: the Go loop runs passes with inner
bounds `n-1, n-2, ..., 0`. -/
def bubbleOuter : Nat → List PlayerAccount → List PlayerAccount
  | 0, l => l
  | m + 1, l => bubbleOuter m (bubblePass m l)

/-- The full `for i ... for j ...` bubble sort of `updateTopPlayers`,
sorting descending by balance. -/
def bubbleSort (l : List PlayerAccount) : List PlayerAccount :=
  bubbleOuter l.length l

/-- The list computed by `updateTopPlayers` (lines 344-367) from a snapshot
of the account map: sort all accounts descending by balance, then truncate
to the configured limit (`limit := TopPlayersLimit; if len < limit, limit =
len`). -/
def topPlayersOf (data : List (String × PlayerAccount)) (topLimit : Nat) :
    List PlayerAccount :=
  let players := data.map Prod.snd
  let sorted := bubbleSort players
  let limit := if players.length < topLimit then players.length else topLimit
  sorted.take limit

/-- `updateTopPlayers` as a state transformer. -/
def updateTopPlayers (e : EconomyPlugin) : EconomyPlugin :=
  { e with topPlayers := topPlayersOf e.playerData e.config.topPlayersLimit }

/-- `logTransaction` guarded by `EnableLogging` as done at each call site;
the record is appended to the log. -/
def logTx (e : EconomyPlugin) (t : Transaction) : EconomyPlugin :=
  if e.config.enableLogging then { e with log := e.log ++ [t] } else e

/-- `createAccount` (lines 169-185): build a fresh account seeded with the
default balance, store it under the lowercased username, recompute the
ranking, and return it. -/
def createAccount (e : EconomyPlugin) (username : String) (now : Nat) :
    PlayerAccount × EconomyPlugin :=
  let account : PlayerAccount :=
    { username := username
      balance := e.config.defaultBalance
      lastSeen := now
      totalEarned := e.config.defaultBalance
      totalSpent := 0 }
  (account,
    updateTopPlayers
      { e with playerData := mapInsert (lowerStr username) account e.playerData })

/-- `getAccount` (lines 187-199): look up the lowercased username; create
the account when absent, otherwise refresh `LastSeen`. -/
def getAccount (e : EconomyPlugin) (username : String) (now : Nat) :
    PlayerAccount × EconomyPlugin :=
  match mapLookup (lowerStr username) e.playerData with
  | none => createAccount e username now
  | some account =>
      let account' := { account with lastSeen := now }
      (account',
        { e with playerData := mapInsert (lowerStr username) account' e.playerData })

/-- `getBalance` (lines 201-204). -/
def getBalance (e : EconomyPlugin) (username : String) (now : Nat) :
    ℚ × EconomyPlugin :=
  let p := getAccount e username now
  (p.1.balance, p.2)

/-- `setBalance` (lines 206-232). -/
def setBalance (e : EconomyPlugin) (username : String) (amount : ℚ) (now : Nat) :
    Bool × EconomyPlugin :=
  if amount < 0 ∨ e.config.maxBalance < amount then (false, e)
  else
    let p := getAccount e username now
    let account := p.1
    let e1 := p.2
    let e2 := { e1 with
      playerData := mapInsert (lowerStr username) { account with balance := amount }
        e1.playerData }
    (true, logTx (updateTopPlayers e2)
      { From := "", To := username, Amount := amount, Kind := TransactionType.SET,
        Timestamp := now, Reason := "Balance set by admin" })

/-- `addMoney` (lines 234-267), the spec's `credit`. -/
def addMoney (e : EconomyPlugin) (username : String) (amount : ℚ) (now : Nat) :
    Bool × EconomyPlugin :=
  if amount ≤ 0 then (false, e)
  else
    let p := getAccount e username now
    let account := p.1
    let e1 := p.2
    let newBalance := account.balance + amount
    if e1.config.maxBalance < newBalance then (false, e1)
    else
      let account' := { account with
        balance := newBalance, totalEarned := account.totalEarned + amount }
      let e2 := updateTopPlayers
        { e1 with playerData := mapInsert (lowerStr username) account' e1.playerData }
      (true, logTx e2
        { From := "", To := username, Amount := amount, Kind := TransactionType.ADD,
          Timestamp := now, Reason := "Money added" })

/-- `subtractMoney` (lines 269-300), the spec's `debit`. -/
def subtractMoney (e : EconomyPlugin) (username : String) (amount : ℚ) (now : Nat) :
    Bool × EconomyPlugin :=
  if amount ≤ 0 then (false, e)
  else
    let p := getAccount e username now
    let account := p.1
    let e1 := p.2
    if account.balance < amount then (false, e1)
    else
      let account' := { account with
        balance := account.balance - amount, totalSpent := account.totalSpent + amount }
      let e2 := updateTopPlayers
        { e1 with playerData := mapInsert (lowerStr username) account' e1.playerData }
      (true, logTx e2
        { From := username, To := "", Amount := amount, Kind := TransactionType.SUBTRACT,
          Timestamp := now, Reason := "Money subtracted" })

/-- `transferMoney` (lines 302-342), the spec's `transfer`. -/
def transferMoney (e : EconomyPlugin) (fromU toU : String) (amount : ℚ) (now : Nat) :
    Bool × EconomyPlugin :=
  if amount ≤ 0 ∨ lowerStr fromU = lowerStr toU then (false, e)
  else
    let p1 := getAccount e fromU now
    let fromAccount := p1.1
    let e1 := p1.2
    let p2 := getAccount e1 toU now
    let toAccount := p2.1
    let e2 := p2.2
    if fromAccount.balance < amount then (false, e2)
    else if e2.config.maxBalance < toAccount.balance + amount then (false, e2)
    else
      let fromAccount' := { fromAccount with
        balance := fromAccount.balance - amount,
        totalSpent := fromAccount.totalSpent + amount }
      let toAccount' := { toAccount with
        balance := toAccount.balance + amount,
        totalEarned := toAccount.totalEarned + amount }
      let e3 := { e2 with
        playerData := mapInsert (lowerStr toU) toAccount'
          (mapInsert (lowerStr fromU) fromAccount' e2.playerData) }
      (true, logTx (updateTopPlayers e3)
        { From := fromU, To := toU, Amount := amount, Kind := TransactionType.TRANSFER,
          Timestamp := now, Reason := "Money transfer" })

/-- The initial plugin state built by `NewEconomyPlugin` (lines 61-76). -/
def NewEconomyPlugin : EconomyPlugin :=
  { playerData := []
    config :=
      { defaultBalance := 1000
        maxBalance := 1000000
        currencySymbol := "$"
        currencyName := "Coins"
        enableLogging := true
        topPlayersLimit := 10 }
    topPlayers := []
    log := [] }

/-- The ledger operations exposed by the store (spec §4.1/§6). -/
inductive Op where
  | getOrCreate (username : String) (now : Nat)
  | getBalance (username : String) (now : Nat)
  | setBalance (username : String) (amount : ℚ) (now : Nat)
  | addMoney (username : String) (amount : ℚ) (now : Nat)
  | subtractMoney (username : String) (amount : ℚ) (now : Nat)
  | transferMoney (fromU toU : String) (amount : ℚ) (now : Nat)

/-- The state reached by running one ledger operation. -/
def applyOp (e : EconomyPlugin) : Op → EconomyPlugin
  | Op.getOrCreate u now => (getAccount e u now).2
  | Op.getBalance u now => (getBalance e u now).2
  | Op.setBalance u a now => (setBalance e u a now).2
  | Op.addMoney u a now => (addMoney e u a now).2
  | Op.subtractMoney u a now => (subtractMoney e u a now).2
  | Op.transferMoney f t a now => (transferMoney e f t a now).2

/-- The balance a caller observes for `u`: the stored balance, or the
default balance that `getBalance` would create and return for a missing
account. -/
def balOf (e : EconomyPlugin) (u : String) : ℚ :=
  ((mapLookup (lowerStr u) e.playerData).map PlayerAccount.balance).getD
    e.config.defaultBalance

/-- The observed `TotalEarned` for `u` (a fresh account starts at the
default balance). -/
def earnedOf (e : EconomyPlugin) (u : String) : ℚ :=
  ((mapLookup (lowerStr u) e.playerData).map PlayerAccount.totalEarned).getD
    e.config.defaultBalance

/-- The observed `TotalSpent` for `u` (a fresh account starts at 0). -/
def spentOf (e : EconomyPlugin) (u : String) : ℚ :=
  ((mapLookup (lowerStr u) e.playerData).map PlayerAccount.totalSpent).getD 0

/-- The balance invariant of spec §3/§4.1 for every stored account. -/
def BalInv (e : EconomyPlugin) : Prop :=
  ∀ p ∈ e.playerData, 0 ≤ p.2.balance ∧ p.2.balance ≤ e.config.maxBalance

/-- Ranking order: descending by balance. -/
def balGE (a b : PlayerAccount) : Prop := b.balance ≤ a.balance

/-- The ranking exposed by `TopN`: correct length and sorted descending. -/
def TopOK (e : EconomyPlugin) : Prop :=
  e.topPlayers.length = min e.config.topPlayersLimit e.playerData.length
  ∧ List.Sorted balGE e.topPlayers

/-- `%.2f` of `fmt.Sprintf` for the non-negative amounts the program logs:
round to cents and print with exactly two decimals.  (Go rounds the binary
double half-to-even; every amount exercised here is exact in cents, where
the two agree.) -/
def formatAmount2 (amount : ℚ) : String :=
  let cents : ℤ := round (amount * 100)
  let whole := cents / 100
  let frac := (cents % 100).toNat
  toString whole ++ "." ++ (if frac < 10 then "0" ++ toString frac else toString frac)

/-- `formatMoney` (lines 391-393). -/
def formatMoney (e : EconomyPlugin) (amount : ℚ) : String :=
  e.config.currencySymbol ++ formatAmount2 amount

/-- The log line written by `logTransaction` (lines 369-389):
`fmt.Sprintf("[%s] %s -> %s: %s%.2f (Type: %d, Reason: %s)\n", ...)` with
the formatted timestamp passed in as `tsText`. -/
def logEntryLine (e : EconomyPlugin) (tsText : String) (t : Transaction) : String :=
  "[" ++ tsText ++ "] " ++ t.From ++ " -> " ++ t.To ++ ": " ++
    e.config.currencySymbol ++ formatAmount2 t.Amount ++
    " (Type: " ++ toString t.Kind.toNat ++ ", Reason: " ++ t.Reason ++ ")\n"

/-- Interleaving model for two concurrent `getAccount` calls on the same
username.  `getAccount` performs its lookup under `RLock` and releases the
lock before `createAccount` takes the write lock (lines 187-199, 169-185),
so each thread executes two separate atomic steps: (1) lookup, (2) create
when the recorded lookup found nothing.  Accounts are represented by the
allocation counter `nextId`, so distinct ids are distinct account objects.
`tSeen = some r` records that the thread's lookup step ran with result `r`;
`tRet` is the account the thread's `getAccount` returned. -/
structure RaceState where
  store : List (String × Nat)
  nextId : Nat
  t1Seen : Option (Option Nat)
  t1Ret : Option Nat
  t2Seen : Option (Option Nat)
  t2Ret : Option Nat
deriving DecidableEq

/-- One atomic step of thread 1 of the `getAccount` race model. -/
def raceStep1 (u : String) (s : RaceState) : RaceState :=
  match s.t1Seen with
  | none => { s with t1Seen := some (mapLookup (lowerStr u) s.store) }
  | some (some id) =>
      if s.t1Ret = none then { s with t1Ret := some id } else s
  | some none =>
      if s.t1Ret = none then
        { s with store := mapInsert (lowerStr u) s.nextId s.store
                 nextId := s.nextId + 1
                 t1Ret := some s.nextId }
      else s

/-- One atomic step of thread 2 of the `getAccount` race model. -/
def raceStep2 (u : String) (s : RaceState) : RaceState :=
  match s.t2Seen with
  | none => { s with t2Seen := some (mapLookup (lowerStr u) s.store) }
  | some (some id) =>
      if s.t2Ret = none then { s with t2Ret := some id } else s
  | some none =>
      if s.t2Ret = none then
        { s with store := mapInsert (lowerStr u) s.nextId s.store
                 nextId := s.nextId + 1
                 t2Ret := some s.nextId }
      else s

/-- Run a schedule (`true` = thread 1 steps, `false` = thread 2 steps). -/
def raceRun (u : String) (sched : List Bool) (s : RaceState) : RaceState :=
  sched.foldl (fun s t1 => if t1 then raceStep1 u s else raceStep2 u s) s

/-- Both threads not yet started, empty store. -/
def raceInit : RaceState :=
  { store := [], nextId := 0, t1Seen := none, t1Ret := none,
    t2Seen := none, t2Ret := none }

/-! ### Lemmas about the association-list map -/

theorem mapLookup_insert_self {α : Type} (k : String) (v : α) :
    ∀ l : List (String × α), mapLookup k (mapInsert k v l) = some v := by
  intro l
  induction l with
  | nil => simp [mapInsert, mapLookup]
  | cons p rest ih =>
      by_cases h : p.1 = k
      · simp [mapInsert, mapLookup, h]
      · simp [mapInsert, mapLookup, h, ih]

theorem mapLookup_insert_ne {α : Type} {k k' : String} (h : k' ≠ k) (v : α) :
    ∀ l : List (String × α), mapLookup k' (mapInsert k v l) = mapLookup k' l := by
  intro l
  induction l with
  | nil => simp [mapInsert, mapLookup, Ne.symm h]
  | cons p rest ih =>
      by_cases hp : p.1 = k
      · simp [mapInsert, mapLookup, hp, Ne.symm h]
      · simp [mapInsert, mapLookup, hp, ih]

theorem mapLookup_mem {α : Type} {k : String} {v : α} {l : List (String × α)}
    (h : mapLookup k l = some v) : (k, v) ∈ l := by
  induction l with
  | nil => simp [mapLookup] at h
  | cons p rest ih =>
      obtain ⟨pk, pv⟩ := p
      simp only [mapLookup] at h
      by_cases hp : pk = k
      · rw [if_pos hp] at h
        subst hp
        obtain rfl := Option.some.inj h
        exact List.mem_cons_self _ _
      · rw [if_neg hp] at h
        exact List.mem_cons_of_mem _ (ih h)

theorem mem_mapInsert {α : Type} {k : String} {v : α} {p : String × α} :
    ∀ {l : List (String × α)}, p ∈ mapInsert k v l → p = (k, v) ∨ p ∈ l := by
  intro l
  induction l with
  | nil =>
      intro h
      simp [mapInsert] at h
      left; exact h
  | cons q rest ih =>
      intro h
      by_cases hq : q.1 = k
      · simp only [mapInsert, if_pos hq] at h
        rcases List.mem_cons.mp h with h1 | h1
        · left; exact h1
        · right; exact List.mem_cons_of_mem _ h1
      · simp only [mapInsert, if_neg hq] at h
        rcases List.mem_cons.mp h with h1 | h1
        · right; rw [h1]; exact List.mem_cons_self _ _
        · rcases ih h1 with h2 | h2
          · left; exact h2
          · right; exact List.mem_cons_of_mem _ h2

theorem mapInsert_length_of_found {α : Type} {k : String} {v : α} :
    ∀ {l : List (String × α)}, mapLookup k l = some v →
      ∀ v' : α, (mapInsert k v' l).length = l.length := by
  intro l
  induction l with
  | nil => intro h; simp [mapLookup] at h
  | cons q rest ih =>
      intro h v'
      by_cases hq : q.1 = k
      · simp [mapInsert, hq]
      · simp only [mapLookup, if_neg hq] at h
        simp [mapInsert, hq, ih h]

/-! ### Projection lemmas for the state transformers -/

theorem updateTopPlayers_playerData (e : EconomyPlugin) :
    (updateTopPlayers e).playerData = e.playerData := rfl

theorem updateTopPlayers_config (e : EconomyPlugin) :
    (updateTopPlayers e).config = e.config := rfl

theorem logTx_playerData (e : EconomyPlugin) (t : Transaction) :
    (logTx e t).playerData = e.playerData := by
  unfold logTx; split <;> rfl

theorem logTx_config (e : EconomyPlugin) (t : Transaction) :
    (logTx e t).config = e.config := by
  unfold logTx; split <;> rfl

theorem logTx_topPlayers (e : EconomyPlugin) (t : Transaction) :
    (logTx e t).topPlayers = e.topPlayers := by
  unfold logTx; split <;> rfl

/-! ### Lemmas about `getAccount` -/

theorem getAccount_fst_balance (e : EconomyPlugin) (u : String) (now : Nat) :
    (getAccount e u now).1.balance = balOf e u := by
  cases h : mapLookup (lowerStr u) e.playerData with
  | none => simp [getAccount, createAccount, balOf, h]
  | some a => simp [getAccount, balOf, h]

theorem getAccount_fst_totalEarned (e : EconomyPlugin) (u : String) (now : Nat) :
    (getAccount e u now).1.totalEarned = earnedOf e u := by
  cases h : mapLookup (lowerStr u) e.playerData with
  | none => simp [getAccount, createAccount, earnedOf, h]
  | some a => simp [getAccount, earnedOf, h]

theorem getAccount_fst_totalSpent (e : EconomyPlugin) (u : String) (now : Nat) :
    (getAccount e u now).1.totalSpent = spentOf e u := by
  cases h : mapLookup (lowerStr u) e.playerData with
  | none => simp [getAccount, createAccount, spentOf, h]
  | some a => simp [getAccount, spentOf, h]

theorem getAccount_snd_playerData (e : EconomyPlugin) (u : String) (now : Nat) :
    (getAccount e u now).2.playerData
      = mapInsert (lowerStr u) (getAccount e u now).1 e.playerData := by
  cases h : mapLookup (lowerStr u) e.playerData with
  | none => simp [getAccount, createAccount, updateTopPlayers_playerData, h]
  | some a => simp [getAccount, h]

theorem getAccount_snd_config (e : EconomyPlugin) (u : String) (now : Nat) :
    (getAccount e u now).2.config = e.config := by
  cases h : mapLookup (lowerStr u) e.playerData with
  | none => simp [getAccount, createAccount, updateTopPlayers_config, h]
  | some a => simp [getAccount, h]

theorem getAccount_fst_of_none (e : EconomyPlugin) (u : String) (now : Nat)
    (h : mapLookup (lowerStr u) e.playerData = none) :
    (getAccount e u now).1
      = { username := u, balance := e.config.defaultBalance, lastSeen := now,
          totalEarned := e.config.defaultBalance, totalSpent := 0 } := by
  simp [getAccount, createAccount, h]

theorem getAccount_fst_of_some (e : EconomyPlugin) (u : String) (now : Nat)
    (a : PlayerAccount) (h : mapLookup (lowerStr u) e.playerData = some a) :
    (getAccount e u now).1 = { a with lastSeen := now } := by
  simp [getAccount, h]

theorem balOf_getAccount (e : EconomyPlugin) (u : String) (now : Nat) (w : String) :
    balOf (getAccount e u now).2 w = balOf e w := by
  by_cases hw : lowerStr w = lowerStr u
  · have h1 : balOf (getAccount e u now).2 w = (getAccount e u now).1.balance := by
      unfold balOf
      rw [getAccount_snd_playerData, getAccount_snd_config, hw, mapLookup_insert_self]
      simp
    have h2 : balOf e w = balOf e u := by unfold balOf; rw [hw]
    rw [h1, h2, getAccount_fst_balance]
  · unfold balOf
    rw [getAccount_snd_playerData, getAccount_snd_config, mapLookup_insert_ne hw]

theorem earnedOf_getAccount (e : EconomyPlugin) (u : String) (now : Nat) (w : String) :
    earnedOf (getAccount e u now).2 w = earnedOf e w := by
  by_cases hw : lowerStr w = lowerStr u
  · have h1 : earnedOf (getAccount e u now).2 w = (getAccount e u now).1.totalEarned := by
      unfold earnedOf
      rw [getAccount_snd_playerData, getAccount_snd_config, hw, mapLookup_insert_self]
      simp
    have h2 : earnedOf e w = earnedOf e u := by unfold earnedOf; rw [hw]
    rw [h1, h2, getAccount_fst_totalEarned]
  · unfold earnedOf
    rw [getAccount_snd_playerData, getAccount_snd_config, mapLookup_insert_ne hw]

theorem spentOf_getAccount (e : EconomyPlugin) (u : String) (now : Nat) (w : String) :
    spentOf (getAccount e u now).2 w = spentOf e w := by
  by_cases hw : lowerStr w = lowerStr u
  · have h1 : spentOf (getAccount e u now).2 w = (getAccount e u now).1.totalSpent := by
      unfold spentOf
      rw [getAccount_snd_playerData, hw, mapLookup_insert_self]
      simp
    have h2 : spentOf e w = spentOf e u := by unfold spentOf; rw [hw]
    rw [h1, h2, getAccount_fst_totalSpent]
  · unfold spentOf
    rw [getAccount_snd_playerData, mapLookup_insert_ne hw]

/-! ### Claim theorems: setBalance and addMoney characterizations -/

/-- Claim C5: `setBalance(u, x)` succeeds if and only if
`0 ≤ x ≤ maxBalance`, in which case the stored balance becomes exactly `x`;
for `x` outside the range it fails and the state (hence the balance) is
unchanged. -/
theorem setBalance_spec (e : EconomyPlugin) (u : String) (x : ℚ) (now : Nat) :
    ((setBalance e u x now).1 = true ↔ 0 ≤ x ∧ x ≤ e.config.maxBalance)
    ∧ ((setBalance e u x now).1 = true → balOf (setBalance e u x now).2 u = x)
    ∧ ((setBalance e u x now).1 = false → (setBalance e u x now).2 = e) := by
  by_cases hc : x < 0 ∨ e.config.maxBalance < x
  · have hred : setBalance e u x now = (false, e) := by
      simp only [setBalance]
      rw [if_pos hc]
    refine ⟨?_, ?_, ?_⟩
    · rw [hred]
      simp only [Bool.false_eq_true, false_iff]
      rintro ⟨h0, h1⟩
      rcases hc with h | h
      · exact absurd h0 (not_le.mpr h)
      · exact absurd h1 (not_le.mpr h)
    · rw [hred]; simp
    · rw [hred]; intro _; rfl
  · have hx : 0 ≤ x ∧ x ≤ e.config.maxBalance := by
      rcases not_or.mp hc with ⟨h0, h1⟩
      exact ⟨not_lt.mp h0, not_lt.mp h1⟩
    refine ⟨?_, ?_, ?_⟩
    · simp only [setBalance]
      rw [if_neg hc]
      simp [hx.1, hx.2]
    · intro _
      simp only [setBalance]
      rw [if_neg hc]
      unfold balOf
      simp only [logTx_playerData, logTx_config, updateTopPlayers_playerData,
        updateTopPlayers_config]
      simp [mapLookup_insert_self]
    · intro hfalse
      simp only [setBalance] at hfalse
      rw [if_neg hc] at hfalse
      simp at hfalse

/-- Claim C3: `credit(u, a)` (the code's `addMoney`) succeeds exactly when
`a > 0` and `balance(u) + a ≤ maxBalance`; on success the balance and
`totalEarned` each grow by exactly `a`, and on failure both are
unchanged. -/
theorem addMoney_spec (e : EconomyPlugin) (u : String) (a : ℚ) (now : Nat) :
    ((addMoney e u a now).1 = true ↔ 0 < a ∧ balOf e u + a ≤ e.config.maxBalance)
    ∧ ((addMoney e u a now).1 = true →
        balOf (addMoney e u a now).2 u = balOf e u + a
        ∧ earnedOf (addMoney e u a now).2 u = earnedOf e u + a)
    ∧ ((addMoney e u a now).1 = false →
        balOf (addMoney e u a now).2 u = balOf e u
        ∧ earnedOf (addMoney e u a now).2 u = earnedOf e u) := by
  by_cases h1 : a ≤ 0
  · have hred : addMoney e u a now = (false, e) := by
      simp only [addMoney]
      rw [if_pos h1]
    refine ⟨?_, ?_, ?_⟩
    · rw [hred]
      simp only [Bool.false_eq_true, false_iff]
      rintro ⟨h, _⟩
      exact absurd h (not_lt.mpr h1)
    · rw [hred]; simp
    · rw [hred]; intro _; exact ⟨rfl, rfl⟩
  · by_cases h2 : e.config.maxBalance < balOf e u + a
    · have hred : addMoney e u a now = (false, (getAccount e u now).2) := by
        simp only [addMoney]
        rw [if_neg h1, getAccount_snd_config e u now, getAccount_fst_balance e u now,
          if_pos h2]
      refine ⟨?_, ?_, ?_⟩
      · rw [hred]
        simp only [Bool.false_eq_true, false_iff]
        rintro ⟨_, hle⟩
        exact absurd h2 (not_lt.mpr hle)
      · rw [hred]; simp
      · rw [hred]
        intro _
        exact ⟨balOf_getAccount e u now u, earnedOf_getAccount e u now u⟩
    · refine ⟨?_, ?_, ?_⟩
      · simp only [addMoney]
        rw [if_neg h1, getAccount_snd_config e u now, getAccount_fst_balance e u now,
          if_neg h2]
        simp [not_le.mp h1, not_lt.mp h2]
      · intro _
        simp only [addMoney]
        rw [if_neg h1, getAccount_snd_config e u now, getAccount_fst_balance e u now,
          if_neg h2]
        constructor
        · unfold balOf
          simp only [logTx_playerData, logTx_config, updateTopPlayers_playerData,
            updateTopPlayers_config]
          simp [mapLookup_insert_self]
        · unfold earnedOf
          simp only [logTx_playerData, logTx_config, updateTopPlayers_playerData,
            updateTopPlayers_config]
          simp [mapLookup_insert_self]
          exact getAccount_fst_totalEarned e u now
      · intro hfalse
        simp only [addMoney] at hfalse
        rw [if_neg h1, getAccount_snd_config e u now, getAccount_fst_balance e u now,
          if_neg h2] at hfalse
        simp at hfalse

/-- Claim C4: `debit(u, a)` (the code's `subtractMoney`) fails whenever
`a > balance(u)` or `a ≤ 0`, leaving the balance (and `totalSpent`)
unchanged; on success the balance shrinks by exactly `a` and `totalSpent`
grows by exactly `a`. -/
theorem subtractMoney_spec (e : EconomyPlugin) (u : String) (a : ℚ) (now : Nat) :
    ((subtractMoney e u a now).1 = true ↔ 0 < a ∧ a ≤ balOf e u)
    ∧ ((subtractMoney e u a now).1 = true →
        balOf (subtractMoney e u a now).2 u = balOf e u - a
        ∧ spentOf (subtractMoney e u a now).2 u = spentOf e u + a)
    ∧ ((subtractMoney e u a now).1 = false →
        balOf (subtractMoney e u a now).2 u = balOf e u
        ∧ spentOf (subtractMoney e u a now).2 u = spentOf e u) := by
  by_cases h1 : a ≤ 0
  · have hred : subtractMoney e u a now = (false, e) := by
      simp only [subtractMoney]
      rw [if_pos h1]
    refine ⟨?_, ?_, ?_⟩
    · rw [hred]
      simp only [Bool.false_eq_true, false_iff]
      rintro ⟨h, _⟩
      exact absurd h (not_lt.mpr h1)
    · rw [hred]; simp
    · rw [hred]; intro _; exact ⟨rfl, rfl⟩
  · by_cases h2 : balOf e u < a
    · have hred : subtractMoney e u a now = (false, (getAccount e u now).2) := by
        simp only [subtractMoney]
        rw [if_neg h1, getAccount_fst_balance e u now, if_pos h2]
      refine ⟨?_, ?_, ?_⟩
      · rw [hred]
        simp only [Bool.false_eq_true, false_iff]
        rintro ⟨_, hle⟩
        exact absurd h2 (not_lt.mpr hle)
      · rw [hred]; simp
      · rw [hred]
        intro _
        exact ⟨balOf_getAccount e u now u, spentOf_getAccount e u now u⟩
    · refine ⟨?_, ?_, ?_⟩
      · simp only [subtractMoney]
        rw [if_neg h1, getAccount_fst_balance e u now, if_neg h2]
        simp [not_le.mp h1, not_lt.mp h2]
      · intro _
        simp only [subtractMoney]
        rw [if_neg h1, getAccount_fst_balance e u now, if_neg h2]
        constructor
        · unfold balOf
          simp only [logTx_playerData, logTx_config, updateTopPlayers_playerData,
            updateTopPlayers_config]
          simp [mapLookup_insert_self]
        · unfold spentOf
          simp only [logTx_playerData, logTx_config, updateTopPlayers_playerData,
            updateTopPlayers_config]
          simp [mapLookup_insert_self]
          exact getAccount_fst_totalSpent e u now
      · intro hfalse
        simp only [subtractMoney] at hfalse
        rw [if_neg h1, getAccount_fst_balance e u now, if_neg h2] at hfalse
        simp at hfalse

/-- Claim C1: `transfer(from, to, amount)` is all-or-nothing: it fails
exactly when `amount ≤ 0`, the two names coincide case-insensitively, the
amount exceeds the source balance, or the destination balance plus the
amount would exceed `maxBalance`; every failure leaves both balances
unchanged, and success moves exactly `amount` from source to destination
while growing `totalSpent(from)` and `totalEarned(to)` by `amount`. -/
theorem transferMoney_all_or_nothing (e : EconomyPlugin) (fromU toU : String)
    (amount : ℚ) (now : Nat) :
    ((transferMoney e fromU toU amount now).1 = false ↔
      amount ≤ 0 ∨ lowerStr fromU = lowerStr toU ∨ balOf e fromU < amount
        ∨ e.config.maxBalance < balOf e toU + amount)
    ∧ ((transferMoney e fromU toU amount now).1 = false →
        balOf (transferMoney e fromU toU amount now).2 fromU = balOf e fromU
        ∧ balOf (transferMoney e fromU toU amount now).2 toU = balOf e toU)
    ∧ ((transferMoney e fromU toU amount now).1 = true →
        balOf (transferMoney e fromU toU amount now).2 fromU = balOf e fromU - amount
        ∧ balOf (transferMoney e fromU toU amount now).2 toU = balOf e toU + amount
        ∧ spentOf (transferMoney e fromU toU amount now).2 fromU
            = spentOf e fromU + amount
        ∧ earnedOf (transferMoney e fromU toU amount now).2 toU
            = earnedOf e toU + amount) := by
  by_cases h0 : amount ≤ 0 ∨ lowerStr fromU = lowerStr toU
  · have hred : transferMoney e fromU toU amount now = (false, e) := by
      simp only [transferMoney]
      rw [if_pos h0]
    refine ⟨?_, ?_, ?_⟩
    · rw [hred]
      constructor
      · intro _
        rcases h0 with h | h
        · exact Or.inl h
        · exact Or.inr (Or.inl h)
      · intro _; rfl
    · rw [hred]; intro _; exact ⟨rfl, rfl⟩
    · rw [hred]; intro htrue; simp at htrue
  · have hamt : ¬ amount ≤ 0 := (not_or.mp h0).1
    have hne : lowerStr fromU ≠ lowerStr toU := (not_or.mp h0).2
    by_cases hf : balOf e fromU < amount
    · have hred : transferMoney e fromU toU amount now
          = (false, (getAccount (getAccount e fromU now).2 toU now).2) := by
        simp only [transferMoney]
        rw [if_neg h0, getAccount_fst_balance e fromU now, if_pos hf]
      refine ⟨?_, ?_, ?_⟩
      · rw [hred]
        constructor
        · intro _
          exact Or.inr (Or.inr (Or.inl hf))
        · intro _; rfl
      · rw [hred]
        intro _
        exact ⟨by simp [balOf_getAccount], by simp [balOf_getAccount]⟩
      · rw [hred]; intro htrue; simp at htrue
    · by_cases ht : e.config.maxBalance < balOf e toU + amount
      · have hred : transferMoney e fromU toU amount now
            = (false, (getAccount (getAccount e fromU now).2 toU now).2) := by
          simp only [transferMoney]
          rw [if_neg h0, getAccount_fst_balance e fromU now, if_neg hf,
            getAccount_snd_config ((getAccount e fromU now).2) toU now,
            getAccount_snd_config e fromU now,
            getAccount_fst_balance ((getAccount e fromU now).2) toU now,
            balOf_getAccount e fromU now toU, if_pos ht]
        refine ⟨?_, ?_, ?_⟩
        · rw [hred]
          constructor
          · intro _
            exact Or.inr (Or.inr (Or.inr ht))
          · intro _; rfl
        · rw [hred]
          intro _
          exact ⟨by simp [balOf_getAccount], by simp [balOf_getAccount]⟩
        · rw [hred]; intro htrue; simp at htrue
      · refine ⟨?_, ?_, ?_⟩
        · simp only [transferMoney]
          rw [if_neg h0, getAccount_fst_balance e fromU now, if_neg hf,
            getAccount_snd_config ((getAccount e fromU now).2) toU now,
            getAccount_snd_config e fromU now,
            getAccount_fst_balance ((getAccount e fromU now).2) toU now,
            balOf_getAccount e fromU now toU, if_neg ht]
          simp [hamt, hne, hf, ht]
        · intro hfalse
          simp only [transferMoney] at hfalse
          rw [if_neg h0, getAccount_fst_balance e fromU now, if_neg hf,
            getAccount_snd_config ((getAccount e fromU now).2) toU now,
            getAccount_snd_config e fromU now,
            getAccount_fst_balance ((getAccount e fromU now).2) toU now,
            balOf_getAccount e fromU now toU, if_neg ht] at hfalse
          simp at hfalse
        · intro _
          simp only [transferMoney]
          rw [if_neg h0, getAccount_fst_balance e fromU now, if_neg hf,
            getAccount_snd_config ((getAccount e fromU now).2) toU now,
            getAccount_snd_config e fromU now,
            getAccount_fst_balance ((getAccount e fromU now).2) toU now,
            balOf_getAccount e fromU now toU, if_neg ht]
          refine ⟨?_, ?_, ?_, ?_⟩
          · unfold balOf
            simp only [logTx_playerData, logTx_config, updateTopPlayers_playerData,
              updateTopPlayers_config]
            rw [mapLookup_insert_ne hne, mapLookup_insert_self]
            simp
          · unfold balOf
            simp only [logTx_playerData, logTx_config, updateTopPlayers_playerData,
              updateTopPlayers_config]
            rw [mapLookup_insert_self]
            simp
          · unfold spentOf
            simp only [logTx_playerData, updateTopPlayers_playerData]
            rw [mapLookup_insert_ne hne, mapLookup_insert_self]
            simp [getAccount_fst_totalSpent e fromU now]
            rfl
          · unfold earnedOf
            simp only [logTx_playerData, logTx_config, updateTopPlayers_playerData,
              updateTopPlayers_config]
            rw [mapLookup_insert_self]
            simp [getAccount_fst_totalEarned ((getAccount e fromU now).2) toU now,
              earnedOf_getAccount e fromU now toU]
            rfl

/-- Claim C10: a successful `setBalance` on an existing account rewrites
only that account's balance and `lastSeen`; its username, `totalEarned` and
`totalSpent` are kept, and the binding of every other key is untouched. -/
theorem setBalance_frame (e : EconomyPlugin) (u : String) (x : ℚ) (now : Nat)
    (a : PlayerAccount) (hx0 : 0 ≤ x) (hx1 : x ≤ e.config.maxBalance)
    (ha : mapLookup (lowerStr u) e.playerData = some a) :
    (setBalance e u x now).1 = true
    ∧ mapLookup (lowerStr u) (setBalance e u x now).2.playerData
        = some { a with balance := x, lastSeen := now }
    ∧ ∀ k, k ≠ lowerStr u →
        mapLookup k (setBalance e u x now).2.playerData
          = mapLookup k e.playerData := by
  have hc : ¬ (x < 0 ∨ e.config.maxBalance < x) := by
    rw [not_or]
    exact ⟨not_lt.mpr hx0, not_lt.mpr hx1⟩
  have hga : getAccount e u now
      = ({ a with lastSeen := now },
         { e with playerData :=
            mapInsert (lowerStr u) ({ a with lastSeen := now }) e.playerData }) := by
    simp [getAccount, ha]
  refine ⟨?_, ?_, ?_⟩
  · simp only [setBalance]
    rw [if_neg hc]
  · simp only [setBalance]
    rw [if_neg hc, hga]
    simp only [logTx_playerData, updateTopPlayers_playerData]
    rw [mapLookup_insert_self]
  · intro k hk
    simp only [setBalance]
    rw [if_neg hc, hga]
    simp only [logTx_playerData, updateTopPlayers_playerData]
    rw [mapLookup_insert_ne hk, mapLookup_insert_ne hk]

/-- Claim C9 (amended): a `transfer` with a positive amount and distinct
case-insensitive names creates any missing account among the two; when the
transfer then fails, the created account still holds exactly the default
balance, default `totalEarned`, and zero `totalSpent`. -/
theorem transferMoney_creates_missing_accounts (e : EconomyPlugin)
    (fromU toU u : String) (amount : ℚ) (now : Nat)
    (hamt : 0 < amount) (hne : lowerStr fromU ≠ lowerStr toU)
    (hu : u = fromU ∨ u = toU)
    (hmiss : mapLookup (lowerStr u) e.playerData = none) :
    (∃ a, mapLookup (lowerStr u)
        (transferMoney e fromU toU amount now).2.playerData = some a)
    ∧ ((transferMoney e fromU toU amount now).1 = false →
        mapLookup (lowerStr u) (transferMoney e fromU toU amount now).2.playerData
          = some { username := u, balance := e.config.defaultBalance,
                   lastSeen := now, totalEarned := e.config.defaultBalance,
                   totalSpent := 0 }) := by
  have h0 : ¬ (amount ≤ 0 ∨ lowerStr fromU = lowerStr toU) := by
    rw [not_or]
    exact ⟨not_le.mpr hamt, hne⟩
  rcases hu with h | h
  · subst h
    have hfrom1 : (getAccount e u now).1
        = { username := u, balance := e.config.defaultBalance, lastSeen := now,
            totalEarned := e.config.defaultBalance, totalSpent := 0 } :=
      getAccount_fst_of_none e u now hmiss
    by_cases hf : balOf e u < amount
    · have hred : transferMoney e u toU amount now
          = (false, (getAccount (getAccount e u now).2 toU now).2) := by
        simp only [transferMoney]
        rw [if_neg h0, getAccount_fst_balance e u now, if_pos hf]
      refine ⟨?_, ?_⟩
      · rw [hred]
        simp only [getAccount_snd_playerData]
        rw [mapLookup_insert_ne hne, mapLookup_insert_self]
        exact ⟨_, rfl⟩
      · intro _
        rw [hred]
        simp only [getAccount_snd_playerData]
        rw [mapLookup_insert_ne hne, mapLookup_insert_self, hfrom1]
    · by_cases ht : e.config.maxBalance < balOf e toU + amount
      · have hred : transferMoney e u toU amount now
            = (false, (getAccount (getAccount e u now).2 toU now).2) := by
          simp only [transferMoney]
          rw [if_neg h0, getAccount_fst_balance e u now, if_neg hf,
            getAccount_snd_config ((getAccount e u now).2) toU now,
            getAccount_snd_config e u now,
            getAccount_fst_balance ((getAccount e u now).2) toU now,
            balOf_getAccount e u now toU, if_pos ht]
        refine ⟨?_, ?_⟩
        · rw [hred]
          simp only [getAccount_snd_playerData]
          rw [mapLookup_insert_ne hne, mapLookup_insert_self]
          exact ⟨_, rfl⟩
        · intro _
          rw [hred]
          simp only [getAccount_snd_playerData]
          rw [mapLookup_insert_ne hne, mapLookup_insert_self, hfrom1]
      · have htrue : (transferMoney e u toU amount now).1 = true := by
          simp only [transferMoney]
          rw [if_neg h0, getAccount_fst_balance e u now, if_neg hf,
            getAccount_snd_config ((getAccount e u now).2) toU now,
            getAccount_snd_config e u now,
            getAccount_fst_balance ((getAccount e u now).2) toU now,
            balOf_getAccount e u now toU, if_neg ht]
        refine ⟨?_, ?_⟩
        · simp only [transferMoney, if_neg h0, getAccount_fst_balance e u now,
            if_neg hf, getAccount_snd_config ((getAccount e u now).2) toU now,
            getAccount_snd_config e u now,
            getAccount_fst_balance ((getAccount e u now).2) toU now,
            balOf_getAccount e u now toU, if_neg ht, logTx_playerData,
            updateTopPlayers_playerData, mapLookup_insert_ne hne,
            mapLookup_insert_self]
          exact ⟨_, rfl⟩
        · intro hfalse
          rw [htrue] at hfalse
          simp at hfalse
  · subst h
    have hmiss2 : mapLookup (lowerStr u) (getAccount e fromU now).2.playerData
        = none := by
      rw [getAccount_snd_playerData e fromU now, mapLookup_insert_ne (Ne.symm hne),
        hmiss]
    have hto1 : (getAccount (getAccount e fromU now).2 u now).1
        = { username := u, balance := e.config.defaultBalance, lastSeen := now,
            totalEarned := e.config.defaultBalance, totalSpent := 0 } := by
      rw [getAccount_fst_of_none ((getAccount e fromU now).2) u now hmiss2,
        getAccount_snd_config e fromU now]
    by_cases hf : balOf e fromU < amount
    · have hred : transferMoney e fromU u amount now
          = (false, (getAccount (getAccount e fromU now).2 u now).2) := by
        simp only [transferMoney]
        rw [if_neg h0, getAccount_fst_balance e fromU now, if_pos hf]
      refine ⟨?_, ?_⟩
      · rw [hred]
        simp only [getAccount_snd_playerData]
        rw [mapLookup_insert_self]
        exact ⟨_, rfl⟩
      · intro _
        rw [hred]
        simp only [getAccount_snd_playerData]
        rw [mapLookup_insert_self, hto1]
    · by_cases ht : e.config.maxBalance < balOf e u + amount
      · have hred : transferMoney e fromU u amount now
            = (false, (getAccount (getAccount e fromU now).2 u now).2) := by
          simp only [transferMoney]
          rw [if_neg h0, getAccount_fst_balance e fromU now, if_neg hf,
            getAccount_snd_config ((getAccount e fromU now).2) u now,
            getAccount_snd_config e fromU now,
            getAccount_fst_balance ((getAccount e fromU now).2) u now,
            balOf_getAccount e fromU now u, if_pos ht]
        refine ⟨?_, ?_⟩
        · rw [hred]
          simp only [getAccount_snd_playerData]
          rw [mapLookup_insert_self]
          exact ⟨_, rfl⟩
        · intro _
          rw [hred]
          simp only [getAccount_snd_playerData]
          rw [mapLookup_insert_self, hto1]
      · have htrue : (transferMoney e fromU u amount now).1 = true := by
          simp only [transferMoney]
          rw [if_neg h0, getAccount_fst_balance e fromU now, if_neg hf,
            getAccount_snd_config ((getAccount e fromU now).2) u now,
            getAccount_snd_config e fromU now,
            getAccount_fst_balance ((getAccount e fromU now).2) u now,
            balOf_getAccount e fromU now u, if_neg ht]
        refine ⟨?_, ?_⟩
        · simp only [transferMoney, if_neg h0, getAccount_fst_balance e fromU now,
            if_neg hf, getAccount_snd_config ((getAccount e fromU now).2) u now,
            getAccount_snd_config e fromU now,
            getAccount_fst_balance ((getAccount e fromU now).2) u now,
            balOf_getAccount e fromU now u, if_neg ht, logTx_playerData,
            updateTopPlayers_playerData, mapLookup_insert_self]
          exact ⟨_, rfl⟩
        · intro hfalse
          rw [htrue] at hfalse
          simp at hfalse

/-! ### Preservation of the balance invariant -/

theorem balInv_logTx (e : EconomyPlugin) (t : Transaction) (h : BalInv e) :
    BalInv (logTx e t) := by
  intro p hp
  rw [logTx_playerData] at hp
  rw [logTx_config]
  exact h p hp

theorem balInv_updateTopPlayers (e : EconomyPlugin) (h : BalInv e) :
    BalInv (updateTopPlayers e) := by
  intro p hp
  rw [updateTopPlayers_playerData] at hp
  rw [updateTopPlayers_config]
  exact h p hp

theorem balInv_state_insert (e1 : EconomyPlugin) (k : String) (v : PlayerAccount)
    (hinv : BalInv e1) (hv0 : 0 ≤ v.balance) (hv1 : v.balance ≤ e1.config.maxBalance) :
    BalInv { e1 with playerData := mapInsert k v e1.playerData } := by
  intro p hp
  rcases mem_mapInsert hp with h2 | h2
  · rw [h2]
    exact ⟨hv0, hv1⟩
  · exact hinv p h2

theorem bounds_mapInsert (maxB : ℚ) (k : String) (v : PlayerAccount)
    (l : List (String × PlayerAccount))
    (hl : ∀ p ∈ l, 0 ≤ p.2.balance ∧ p.2.balance ≤ maxB)
    (hv0 : 0 ≤ v.balance) (hv1 : v.balance ≤ maxB) :
    ∀ p ∈ mapInsert k v l, 0 ≤ p.2.balance ∧ p.2.balance ≤ maxB := by
  intro p hp
  rcases mem_mapInsert hp with h2 | h2
  · rw [h2]
    exact ⟨hv0, hv1⟩
  · exact hl p h2

theorem balInv_mk (pd : List (String × PlayerAccount)) (cfg : Config)
    (tp : List PlayerAccount) (lg : List Transaction)
    (hl : ∀ p ∈ pd, 0 ≤ p.2.balance ∧ p.2.balance ≤ cfg.maxBalance) :
    BalInv { playerData := pd, config := cfg, topPlayers := tp, log := lg } := hl

theorem balOf_bounds {e : EconomyPlugin} (hinv : BalInv e)
    (h0 : 0 ≤ e.config.defaultBalance)
    (h1 : e.config.defaultBalance ≤ e.config.maxBalance) (u : String) :
    0 ≤ balOf e u ∧ balOf e u ≤ e.config.maxBalance := by
  unfold balOf
  cases h : mapLookup (lowerStr u) e.playerData with
  | none => simpa using ⟨h0, h1⟩
  | some a =>
      have := hinv _ (mapLookup_mem h)
      simpa using this

theorem balInv_getAccount (e : EconomyPlugin) (u : String) (now : Nat)
    (hinv : BalInv e) (h0 : 0 ≤ e.config.defaultBalance)
    (h1 : e.config.defaultBalance ≤ e.config.maxBalance) :
    BalInv (getAccount e u now).2 := by
  intro p hp
  rw [getAccount_snd_config]
  rw [getAccount_snd_playerData] at hp
  rcases mem_mapInsert hp with h2 | h2
  · rw [h2]
    simp only [getAccount_fst_balance]
    exact balOf_bounds hinv h0 h1 u
  · exact hinv p h2

theorem balInv_setBalance (e : EconomyPlugin) (u : String) (x : ℚ) (now : Nat)
    (hinv : BalInv e) (h0 : 0 ≤ e.config.defaultBalance)
    (h1 : e.config.defaultBalance ≤ e.config.maxBalance) :
    BalInv (setBalance e u x now).2 := by
  by_cases hc : x < 0 ∨ e.config.maxBalance < x
  · simp only [setBalance]
    rw [if_pos hc]
    exact hinv
  · have hx0 : 0 ≤ x := not_lt.mp (not_or.mp hc).1
    have hx1 : x ≤ e.config.maxBalance := not_lt.mp (not_or.mp hc).2
    simp only [setBalance]
    rw [if_neg hc]
    refine balInv_logTx _ _ (balInv_updateTopPlayers _ ?_)
    refine balInv_state_insert _ _ _ (balInv_getAccount e u now hinv h0 h1) hx0 ?_
    show x ≤ (getAccount e u now).2.config.maxBalance
    rw [getAccount_snd_config]
    exact hx1

theorem balInv_addMoney (e : EconomyPlugin) (u : String) (a : ℚ) (now : Nat)
    (hinv : BalInv e) (h0 : 0 ≤ e.config.defaultBalance)
    (h1 : e.config.defaultBalance ≤ e.config.maxBalance) :
    BalInv (addMoney e u a now).2 := by
  by_cases hc : a ≤ 0
  · simp only [addMoney]
    rw [if_pos hc]
    exact hinv
  · by_cases h2 : e.config.maxBalance < balOf e u + a
    · simp only [addMoney]
      rw [if_neg hc, getAccount_snd_config e u now, getAccount_fst_balance e u now,
        if_pos h2]
      exact balInv_getAccount e u now hinv h0 h1
    · simp only [addMoney]
      rw [if_neg hc, getAccount_snd_config e u now, getAccount_fst_balance e u now,
        if_neg h2]
      refine balInv_logTx _ _ (balInv_updateTopPlayers _ ?_)
      refine balInv_mk _ _ _ _ (bounds_mapInsert _ _ _ _ ?_ ?_ ?_)
      · intro p hp
        have h' := balInv_getAccount e u now hinv h0 h1 p hp
        rwa [getAccount_snd_config] at h'
      · show 0 ≤ balOf e u + a
        exact add_nonneg (balOf_bounds hinv h0 h1 u).1 (not_le.mp hc).le
      · show balOf e u + a ≤ e.config.maxBalance
        exact not_lt.mp h2

theorem balInv_subtractMoney (e : EconomyPlugin) (u : String) (a : ℚ) (now : Nat)
    (hinv : BalInv e) (h0 : 0 ≤ e.config.defaultBalance)
    (h1 : e.config.defaultBalance ≤ e.config.maxBalance) :
    BalInv (subtractMoney e u a now).2 := by
  by_cases hc : a ≤ 0
  · simp only [subtractMoney]
    rw [if_pos hc]
    exact hinv
  · by_cases h2 : balOf e u < a
    · simp only [subtractMoney]
      rw [if_neg hc, getAccount_fst_balance e u now, if_pos h2]
      exact balInv_getAccount e u now hinv h0 h1
    · simp only [subtractMoney]
      rw [if_neg hc, getAccount_fst_balance e u now, if_neg h2]
      refine balInv_logTx _ _ (balInv_updateTopPlayers _ ?_)
      refine balInv_state_insert _ _ _ (balInv_getAccount e u now hinv h0 h1) ?_ ?_
      · show 0 ≤ balOf e u - a
        exact sub_nonneg.mpr (not_lt.mp h2)
      · show balOf e u - a ≤ (getAccount e u now).2.config.maxBalance
        rw [getAccount_snd_config]
        exact le_trans (sub_le_self _ (not_le.mp hc).le) (balOf_bounds hinv h0 h1 u).2

theorem balInv_transferMoney (e : EconomyPlugin) (fromU toU : String) (a : ℚ)
    (now : Nat) (hinv : BalInv e) (h0 : 0 ≤ e.config.defaultBalance)
    (h1 : e.config.defaultBalance ≤ e.config.maxBalance) :
    BalInv (transferMoney e fromU toU a now).2 := by
  by_cases hc : a ≤ 0 ∨ lowerStr fromU = lowerStr toU
  · simp only [transferMoney]
    rw [if_pos hc]
    exact hinv
  · have hinv1 := balInv_getAccount e fromU now hinv h0 h1
    have h0' : 0 ≤ (getAccount e fromU now).2.config.defaultBalance := by
      rw [getAccount_snd_config]; exact h0
    have h1' : (getAccount e fromU now).2.config.defaultBalance
        ≤ (getAccount e fromU now).2.config.maxBalance := by
      rw [getAccount_snd_config]; exact h1
    have hinv2 := balInv_getAccount ((getAccount e fromU now).2) toU now hinv1 h0' h1'
    by_cases hf : balOf e fromU < a
    · simp only [transferMoney]
      rw [if_neg hc, getAccount_fst_balance e fromU now, if_pos hf]
      exact hinv2
    · by_cases ht : e.config.maxBalance < balOf e toU + a
      · simp only [transferMoney]
        rw [if_neg hc, getAccount_fst_balance e fromU now, if_neg hf,
          getAccount_snd_config ((getAccount e fromU now).2) toU now,
          getAccount_snd_config e fromU now,
          getAccount_fst_balance ((getAccount e fromU now).2) toU now,
          balOf_getAccount e fromU now toU, if_pos ht]
        exact hinv2
      · simp only [transferMoney]
        rw [if_neg hc, getAccount_fst_balance e fromU now, if_neg hf,
          getAccount_snd_config ((getAccount e fromU now).2) toU now,
          getAccount_snd_config e fromU now,
          getAccount_fst_balance ((getAccount e fromU now).2) toU now,
          balOf_getAccount e fromU now toU, if_neg ht]
        refine balInv_logTx _ _ (balInv_updateTopPlayers _ ?_)
        refine balInv_mk _ _ _ _
          (bounds_mapInsert _ _ _ _ (bounds_mapInsert _ _ _ _ ?_ ?_ ?_) ?_ ?_)
        · intro p hp
          have h' := hinv2 p hp
          rwa [getAccount_snd_config, getAccount_snd_config] at h'
        · show 0 ≤ balOf e fromU - a
          exact sub_nonneg.mpr (not_lt.mp hf)
        · show balOf e fromU - a ≤ e.config.maxBalance
          exact le_trans (sub_le_self _ (not_le.mp (not_or.mp hc).1).le)
            (balOf_bounds hinv h0 h1 fromU).2
        · show 0 ≤ balOf e toU + a
          exact add_nonneg (balOf_bounds hinv h0 h1 toU).1
            (not_le.mp (not_or.mp hc).1).le
        · show balOf e toU + a ≤ e.config.maxBalance
          exact not_lt.mp ht

/-- Claim C2: every ledger operation (`getOrCreate`, `getBalance`,
`setBalance`, `credit`, `debit`, `transfer`) preserves the invariant
`0 ≤ balance ≤ maxBalance` for every stored account, assuming it held
before the operation and that `0 ≤ defaultBalance ≤ maxBalance` for the
accounts the operation may create. -/
theorem ops_preserve_balance_invariant (e : EconomyPlugin) (op : Op)
    (hinv : BalInv e) (h0 : 0 ≤ e.config.defaultBalance)
    (h1 : e.config.defaultBalance ≤ e.config.maxBalance) :
    BalInv (applyOp e op) := by
  cases op with
  | getOrCreate u now => exact balInv_getAccount e u now hinv h0 h1
  | getBalance u now => exact balInv_getAccount e u now hinv h0 h1
  | setBalance u a now => exact balInv_setBalance e u a now hinv h0 h1
  | addMoney u a now => exact balInv_addMoney e u a now hinv h0 h1
  | subtractMoney u a now => exact balInv_subtractMoney e u a now hinv h0 h1
  | transferMoney f t a now => exact balInv_transferMoney e f t a now hinv h0 h1

/-! ### Correctness of the bubble sort in `updateTopPlayers` -/

theorem bubblePass_structure :
    ∀ (k : Nat) (l : List PlayerAccount), k < l.length →
      ∃ t a, bubblePass k l = t ++ a :: l.drop (k + 1) ∧ t.length = k
        ∧ (t ++ [a]).Perm (l.take (k + 1))
        ∧ ∀ x ∈ l.take (k + 1), a.balance ≤ x.balance := by
  intro k
  induction k with
  | zero =>
      intro l hl
      rcases l with _ | ⟨c, cs⟩
      · exact absurd hl (by simp)
      · refine ⟨[], c, ?_, rfl, ?_, ?_⟩
        · simp [bubblePass]
        · simp
        · intro x hx
          simp at hx
          subst hx
          exact le_rfl
  | succ k ih =>
      intro l hl
      rcases l with _ | ⟨a, _ | ⟨b, rest⟩⟩
      · exact absurd hl (by simp)
      · exact absurd hl (by simp)
      · have hlen : k < (a :: rest).length := by
          simp at hl ⊢
          omega
        have hlen2 : k < (b :: rest).length := by
          simp at hl ⊢
          omega
        by_cases hab : a.balance < b.balance
        · obtain ⟨t, c, heq, htlen, hperm, hmin⟩ := ih (a :: rest) hlen
          refine ⟨b :: t, c, ?_, by simp [htlen], ?_, ?_⟩
          · simp only [bubblePass]
            rw [if_pos hab, heq]
            simp [List.drop_succ_cons]
          · rw [List.take_succ_cons, List.take_succ_cons]
            rw [List.take_succ_cons] at hperm
            exact (hperm.cons b).trans (List.Perm.swap a b _)
          · intro x hx
            rw [List.take_succ_cons, List.take_succ_cons] at hx
            rw [List.take_succ_cons] at hmin
            rcases List.mem_cons.mp hx with rfl | hx1
            · exact hmin x (List.mem_cons_self _ _)
            · rcases List.mem_cons.mp hx1 with rfl | hx2
              · exact le_trans (hmin a (List.mem_cons_self _ _)) hab.le
              · exact hmin x (List.mem_cons_of_mem _ hx2)
        · obtain ⟨t, c, heq, htlen, hperm, hmin⟩ := ih (b :: rest) hlen2
          refine ⟨a :: t, c, ?_, by simp [htlen], ?_, ?_⟩
          · simp only [bubblePass]
            rw [if_neg hab, heq]
            simp [List.drop_succ_cons]
          · rw [List.take_succ_cons, List.take_succ_cons]
            rw [List.take_succ_cons] at hperm
            exact hperm.cons a
          · intro x hx
            rw [List.take_succ_cons, List.take_succ_cons] at hx
            rw [List.take_succ_cons] at hmin
            rcases List.mem_cons.mp hx with rfl | hx1
            · exact le_trans (hmin b (List.mem_cons_self _ _)) (not_lt.mp hab)
            · rcases List.mem_cons.mp hx1 with rfl | hx2
              · exact hmin x (List.mem_cons_self _ _)
              · exact hmin x (List.mem_cons_of_mem _ hx2)

theorem bubbleOuter_sorted_perm :
    ∀ (m : Nat) (l : List PlayerAccount), m ≤ l.length →
      List.Sorted balGE (l.drop m) →
      (∀ x ∈ l.take m, ∀ y ∈ l.drop m, y.balance ≤ x.balance) →
      List.Sorted balGE (bubbleOuter m l) ∧ (bubbleOuter m l).Perm l := by
  intro m
  induction m with
  | zero =>
      intro l _ hs _
      exact ⟨by simpa using hs, List.Perm.refl l⟩
  | succ m ih =>
      intro l hm hs hcross
      have hm' : m < l.length := by omega
      obtain ⟨t, a, heq, htlen, hperm, hmin⟩ := bubblePass_structure m l hm'
      have hpl : (bubblePass m l).Perm l := by
        rw [heq]
        refine List.perm_middle.trans ?_
        have h2 : (a :: t).Perm (l.take (m + 1)) :=
          (List.perm_append_singleton a t).symm.trans hperm
        have h3 : ((a :: t) ++ l.drop (m + 1)).Perm
            (l.take (m + 1) ++ l.drop (m + 1)) := h2.append_right _
        have h4 : l.take (m + 1) ++ l.drop (m + 1) = l := List.take_append_drop (m + 1) l
        have h5 : (l.take (m + 1) ++ l.drop (m + 1)).Perm l := by rw [h4]
        exact h3.trans h5
      have hdl : (bubblePass m l).drop m = a :: l.drop (m + 1) := by
        rw [heq, ← htlen, List.drop_left]
      have htl : (bubblePass m l).take m = t := by
        rw [heq, ← htlen, List.take_left]
      have ha_mem : a ∈ l.take (m + 1) := hperm.mem_iff.mp (by simp)
      have hs' : List.Sorted balGE ((bubblePass m l).drop m) := by
        rw [hdl, List.sorted_cons]
        exact ⟨fun y hy => hcross a ha_mem y hy, hs⟩
      have hcross' : ∀ x ∈ (bubblePass m l).take m, ∀ y ∈ (bubblePass m l).drop m,
          y.balance ≤ x.balance := by
        intro x hx y hy
        rw [htl] at hx
        rw [hdl] at hy
        have hxmem : x ∈ l.take (m + 1) :=
          hperm.mem_iff.mp (List.mem_append_left _ hx)
        rcases List.mem_cons.mp hy with rfl | hy1
        · exact hmin x hxmem
        · exact hcross x hxmem y hy1
      have hm2 : m ≤ (bubblePass m l).length := by
        rw [hpl.length_eq]
        omega
      obtain ⟨hsorted, hperm2⟩ := ih (bubblePass m l) hm2 hs' hcross'
      refine ⟨?_, ?_⟩
      · rw [show bubbleOuter (m + 1) l = bubbleOuter m (bubblePass m l) from rfl]
        exact hsorted
      · rw [show bubbleOuter (m + 1) l = bubbleOuter m (bubblePass m l) from rfl]
        exact hperm2.trans hpl

theorem bubbleSort_sorted_perm (l : List PlayerAccount) :
    List.Sorted balGE (bubbleSort l) ∧ (bubbleSort l).Perm l := by
  refine bubbleOuter_sorted_perm l.length l le_rfl ?_ ?_
  · rw [List.drop_length]
    exact List.sorted_nil
  · intro x _ y hy
    rw [List.drop_length] at hy
    exact absurd hy (List.not_mem_nil y)

theorem topPlayersOf_length (data : List (String × PlayerAccount)) (topLimit : Nat) :
    (topPlayersOf data topLimit).length = min topLimit data.length := by
  have hlen : (bubbleSort (data.map Prod.snd)).length = data.length := by
    rw [(bubbleSort_sorted_perm _).2.length_eq, List.length_map]
  simp only [topPlayersOf, List.length_take, List.length_map, hlen]
  split <;> omega

theorem topPlayersOf_sorted (data : List (String × PlayerAccount)) (topLimit : Nat) :
    List.Sorted balGE (topPlayersOf data topLimit) := by
  simp only [topPlayersOf]
  exact List.Pairwise.sublist (List.take_sublist _ _) (bubbleSort_sorted_perm _).1

/-! ### The `TopOK` invariant across the ledger operations -/

theorem topOK_updateTopPlayers (e : EconomyPlugin) : TopOK (updateTopPlayers e) := by
  refine ⟨?_, ?_⟩
  · rw [updateTopPlayers_config, updateTopPlayers_playerData]
    exact topPlayersOf_length _ _
  · exact topPlayersOf_sorted _ _

theorem topOK_logTx (e : EconomyPlugin) (t : Transaction) (h : TopOK e) :
    TopOK (logTx e t) := by
  obtain ⟨h1, h2⟩ := h
  refine ⟨?_, ?_⟩
  · rw [logTx_topPlayers, logTx_config, logTx_playerData]
    exact h1
  · rw [logTx_topPlayers]
    exact h2

theorem topOK_getAccount (e : EconomyPlugin) (u : String) (now : Nat)
    (h : TopOK e) : TopOK (getAccount e u now).2 := by
  cases hl : mapLookup (lowerStr u) e.playerData with
  | none =>
      simp only [getAccount, createAccount, hl]
      exact topOK_updateTopPlayers _
  | some a =>
      obtain ⟨h1, h2⟩ := h
      have hpd : (getAccount e u now).2.playerData
          = mapInsert (lowerStr u) ({ a with lastSeen := now }) e.playerData := by
        simp [getAccount, hl]
      have htp : (getAccount e u now).2.topPlayers = e.topPlayers := by
        simp [getAccount, hl]
      refine ⟨?_, ?_⟩
      · rw [htp, getAccount_snd_config, hpd, mapInsert_length_of_found hl]
        exact h1
      · rw [htp]
        exact h2

theorem topOK_applyOp (e : EconomyPlugin) (op : Op) (h : TopOK e) :
    TopOK (applyOp e op) := by
  cases op with
  | getOrCreate u now => exact topOK_getAccount e u now h
  | getBalance u now => exact topOK_getAccount e u now h
  | setBalance u a now =>
      by_cases hc : a < 0 ∨ e.config.maxBalance < a
      · simp only [applyOp, setBalance]
        rw [if_pos hc]
        exact h
      · simp only [applyOp, setBalance]
        rw [if_neg hc]
        exact topOK_logTx _ _ (topOK_updateTopPlayers _)
  | addMoney u a now =>
      by_cases hc : a ≤ 0
      · simp only [applyOp, addMoney]
        rw [if_pos hc]
        exact h
      · by_cases h2 : e.config.maxBalance < balOf e u + a
        · simp only [applyOp, addMoney]
          rw [if_neg hc, getAccount_snd_config e u now, getAccount_fst_balance e u now,
            if_pos h2]
          exact topOK_getAccount e u now h
        · simp only [applyOp, addMoney]
          rw [if_neg hc, getAccount_snd_config e u now, getAccount_fst_balance e u now,
            if_neg h2]
          exact topOK_logTx _ _ (topOK_updateTopPlayers _)
  | subtractMoney u a now =>
      by_cases hc : a ≤ 0
      · simp only [applyOp, subtractMoney]
        rw [if_pos hc]
        exact h
      · by_cases h2 : balOf e u < a
        · simp only [applyOp, subtractMoney]
          rw [if_neg hc, getAccount_fst_balance e u now, if_pos h2]
          exact topOK_getAccount e u now h
        · simp only [applyOp, subtractMoney]
          rw [if_neg hc, getAccount_fst_balance e u now, if_neg h2]
          exact topOK_logTx _ _ (topOK_updateTopPlayers _)
  | transferMoney fromU toU a now =>
      by_cases hc : a ≤ 0 ∨ lowerStr fromU = lowerStr toU
      · simp only [applyOp, transferMoney]
        rw [if_pos hc]
        exact h
      · have hto := topOK_getAccount ((getAccount e fromU now).2) toU now
          (topOK_getAccount e fromU now h)
        by_cases hf : balOf e fromU < a
        · simp only [applyOp, transferMoney]
          rw [if_neg hc, getAccount_fst_balance e fromU now, if_pos hf]
          exact hto
        · by_cases ht : e.config.maxBalance < balOf e toU + a
          · simp only [applyOp, transferMoney]
            rw [if_neg hc, getAccount_fst_balance e fromU now, if_neg hf,
              getAccount_snd_config ((getAccount e fromU now).2) toU now,
              getAccount_snd_config e fromU now,
              getAccount_fst_balance ((getAccount e fromU now).2) toU now,
              balOf_getAccount e fromU now toU, if_pos ht]
            exact hto
          · simp only [applyOp, transferMoney]
            rw [if_neg hc, getAccount_fst_balance e fromU now, if_neg hf,
              getAccount_snd_config ((getAccount e fromU now).2) toU now,
              getAccount_snd_config e fromU now,
              getAccount_fst_balance ((getAccount e fromU now).2) toU now,
              balOf_getAccount e fromU now toU, if_neg ht]
            exact topOK_logTx _ _ (topOK_updateTopPlayers _)

/-- Claim C6: after any sequence of ledger operations from the freshly
constructed plugin, the recomputed top-players list has length
`min(topPlayersLimit, accountCount)` and is sorted non-increasing by
balance. -/
theorem topPlayers_length_sorted (ops : List Op) :
    (ops.foldl applyOp NewEconomyPlugin).topPlayers.length
      = min (ops.foldl applyOp NewEconomyPlugin).config.topPlayersLimit
          (ops.foldl applyOp NewEconomyPlugin).playerData.length
    ∧ List.Sorted balGE (ops.foldl applyOp NewEconomyPlugin).topPlayers := by
  have key : ∀ (l : List Op) (e : EconomyPlugin), TopOK e → TopOK (l.foldl applyOp e) := by
    intro l
    induction l with
    | nil => intro e h; exact h
    | cons op rest ih =>
        intro e h
        exact ih _ (topOK_applyOp e op h)
  exact key ops NewEconomyPlugin ⟨by simp [NewEconomyPlugin], List.sorted_nil⟩

/-! ### Concrete-input theorems: the race, the log line, and witnesses -/

/-- Claim C7: the code's `getAccount` is not an atomic lookup-or-insert.
The lookup runs under `RLock` and the create under a separately acquired
write lock, so the schedule lookup₁, lookup₂, create₁, create₂ for the same
unknown username makes both threads run `createAccount`: two distinct
account objects (allocation ids 0 and 1) are handed to the two callers,
the second insert overwrites the first, and thread 1 is left holding an
account that is no longer in the map. -/
theorem getAccount_race_duplicate_creation :
    (raceRun ("alice") [true, false, true, false] raceInit).t1Ret = some 0
    ∧ (raceRun ("alice") [true, false, true, false] raceInit).t2Ret = some 1
    ∧ (raceRun ("alice") [true, false, true, false] raceInit).nextId = 2
    ∧ (raceRun ("alice") [true, false, true, false] raceInit).t1Ret
        ≠ (raceRun ("alice") [true, false, true, false] raceInit).t2Ret
    ∧ mapLookup (lowerStr ("alice"))
        (raceRun ("alice") [true, false, true, false] raceInit).store = some 1 := by
  refine ⟨?_, ?_, ?_, ?_, ?_⟩ <;> decide

/-- Claim C8 counterexample: the audit-log line the code produces for the
spec's example credit is not the spec's literal line.  The format string
`"[%s] %s -> %s: ..."` always prints a space after the closing bracket and
a space before the arrow, so the empty source of a credit yields two
consecutive spaces where the claim's literal has one. -/
theorem logEntry_credit_example_ne_claim :
    (addMoney NewEconomyPlugin ("TestPlayer") 500 0).2.log.map
        (logEntryLine NewEconomyPlugin ("2024-01-01 12:00:00"))
      ≠ ["[2024-01-01 12:00:00] -> TestPlayer: $500.00 (Type: 0, Reason: Money added)\n"] := by
  with_unfolding_all decide

/-- Claim C8 (amended): the line actually produced for a credit of 500 to
TestPlayer with symbol `$` at that timestamp is exactly
`"[2024-01-01 12:00:00]  -> TestPlayer: $500.00 (Type: 0, Reason: Money
added)"` — with two spaces before the arrow — followed by the newline
terminator the code appends. -/
theorem logEntry_credit_example_actual :
    (addMoney NewEconomyPlugin ("TestPlayer") 500 0).2.log.map
        (logEntryLine NewEconomyPlugin ("2024-01-01 12:00:00"))
      = ["[2024-01-01 12:00:00]  -> TestPlayer: $500.00 (Type: 0, Reason: Money added)\n"] := by
  with_unfolding_all rfl

/-- Claim C9 counterexample: a transfer with positive amount and distinct
case-insensitive names that SUCCEEDS leaves the freshly created
destination account with balance 1500 = defaultBalance + amount and
totalEarned 1500, not with balance = defaultBalance = 1000 as the claim
states for every such transfer. -/
theorem transferMoney_success_creates_nondefault :
    (0 : ℚ) < 500
    ∧ lowerStr ("Alice") ≠ lowerStr ("Bob")
    ∧ mapLookup (lowerStr ("Bob")) NewEconomyPlugin.playerData = none
    ∧ (transferMoney NewEconomyPlugin ("Alice") ("Bob") 500 0).1 = true
    ∧ mapLookup (lowerStr ("Bob"))
        (transferMoney NewEconomyPlugin ("Alice") ("Bob") 500 0).2.playerData
      = some { username := "Bob", balance := 1500, lastSeen := 0,
               totalEarned := 1500, totalSpent := 0 }
    ∧ (1500 : ℚ) ≠ NewEconomyPlugin.config.defaultBalance := by
  refine ⟨?_, ?_, ?_, ?_, ?_, ?_⟩ <;> with_unfolding_all decide

/-- Witness for C1 at a concrete successful transfer from the fresh
plugin state. -/
theorem transferMoney_all_or_nothing_witness :
    balOf (transferMoney NewEconomyPlugin ("Alice") ("Bob") 500 0).2 ("Alice")
        = balOf NewEconomyPlugin ("Alice") - 500
    ∧ balOf (transferMoney NewEconomyPlugin ("Alice") ("Bob") 500 0).2 ("Bob")
        = balOf NewEconomyPlugin ("Bob") + 500
    ∧ spentOf (transferMoney NewEconomyPlugin ("Alice") ("Bob") 500 0).2 ("Alice")
        = spentOf NewEconomyPlugin ("Alice") + 500
    ∧ earnedOf (transferMoney NewEconomyPlugin ("Alice") ("Bob") 500 0).2 ("Bob")
        = earnedOf NewEconomyPlugin ("Bob") + 500 :=
  (transferMoney_all_or_nothing NewEconomyPlugin ("Alice") ("Bob") 500 0).2.2
    (by with_unfolding_all rfl)

/-- Witness for C2: the invariant holds in the fresh state and is kept by a
concrete credit. -/
theorem ops_preserve_balance_invariant_witness :
    BalInv NewEconomyPlugin
    ∧ BalInv (applyOp NewEconomyPlugin (Op.addMoney ("alice") 5 0)) :=
  ⟨fun p hp => absurd hp (List.not_mem_nil p),
   ops_preserve_balance_invariant NewEconomyPlugin (Op.addMoney ("alice") 5 0)
     (fun p hp => absurd hp (List.not_mem_nil p))
     (by with_unfolding_all decide) (by with_unfolding_all decide)⟩

/-- Witness for C3 at the spec's example credit. -/
theorem addMoney_spec_witness :
    balOf (addMoney NewEconomyPlugin ("TestPlayer") 500 0).2 ("TestPlayer")
        = balOf NewEconomyPlugin ("TestPlayer") + 500
    ∧ earnedOf (addMoney NewEconomyPlugin ("TestPlayer") 500 0).2 ("TestPlayer")
        = earnedOf NewEconomyPlugin ("TestPlayer") + 500 :=
  (addMoney_spec NewEconomyPlugin ("TestPlayer") 500 0).2.1
    (by with_unfolding_all rfl)

/-- Witness for C4 at a concrete successful debit. -/
theorem subtractMoney_spec_witness :
    balOf (subtractMoney NewEconomyPlugin ("alice") 200 0).2 ("alice")
        = balOf NewEconomyPlugin ("alice") - 200
    ∧ spentOf (subtractMoney NewEconomyPlugin ("alice") 200 0).2 ("alice")
        = spentOf NewEconomyPlugin ("alice") + 200 :=
  (subtractMoney_spec NewEconomyPlugin ("alice") 200 0).2.1
    (by with_unfolding_all rfl)

/-- Witness for C5 at a concrete in-range set. -/
theorem setBalance_spec_witness :
    balOf (setBalance NewEconomyPlugin ("alice") 42 0).2 ("alice") = 42 :=
  (setBalance_spec NewEconomyPlugin ("alice") 42 0).2.1
    (by with_unfolding_all rfl)

/-- Witness for C9 (amended) at a concrete failing transfer: the amount
exceeds the source's default balance, the transfer fails, and the missing
destination account was still created with the default values. -/
theorem transferMoney_creates_missing_accounts_witness :
    (transferMoney NewEconomyPlugin ("Alice") ("Bob") 5000000 0).1 = false
    ∧ mapLookup (lowerStr ("Bob"))
        (transferMoney NewEconomyPlugin ("Alice") ("Bob") 5000000 0).2.playerData
      = some { username := "Bob", balance := NewEconomyPlugin.config.defaultBalance,
               lastSeen := 0, totalEarned := NewEconomyPlugin.config.defaultBalance,
               totalSpent := 0 } :=
  ⟨by with_unfolding_all rfl,
   (transferMoney_creates_missing_accounts NewEconomyPlugin ("Alice") ("Bob") ("Bob")
      5000000 0 (by with_unfolding_all decide) (by with_unfolding_all decide)
      (Or.inr rfl) (by with_unfolding_all rfl)).2
     (by with_unfolding_all rfl)⟩

/-- Witness for C10: setting Bob's balance to 42 at tick 7 after creating
the account at tick 0 keeps his username, totalEarned and totalSpent. -/
theorem setBalance_frame_witness :
    (setBalance (getAccount NewEconomyPlugin ("Bob") 0).2 ("Bob") 42 7).1 = true
    ∧ mapLookup (lowerStr ("Bob"))
        (setBalance (getAccount NewEconomyPlugin ("Bob") 0).2 ("Bob") 42 7).2.playerData
      = some { username := "Bob", balance := 42, lastSeen := 7,
               totalEarned := 1000, totalSpent := 0 } :=
  ⟨(setBalance_frame (getAccount NewEconomyPlugin ("Bob") 0).2 ("Bob") 42 7
      ⟨"Bob", 1000, 0, 1000, 0⟩ (by with_unfolding_all decide)
      (by with_unfolding_all decide) (by with_unfolding_all rfl)).1,
   (setBalance_frame (getAccount NewEconomyPlugin ("Bob") 0).2 ("Bob") 42 7
      ⟨"Bob", 1000, 0, 1000, 0⟩ (by with_unfolding_all decide)
      (by with_unfolding_all decide) (by with_unfolding_all rfl)).2.1⟩
